import Mathlib

/-!
Shallow embedding of the `life-of-game` WebGPU demo.

The repository has two program variants:
* `src/src/main.ts` — the full Game-of-Life demo: two cell-state storage
  buffers, two bind groups swapping their roles, a compute pass followed by a
  render pass every 200 ms (namespace `LifeOfGame.Main`);
* `src/unnamed/part_000` — a render-only reference variant with `GRID_SIZE = 32`,
  a single uniform-only bind group and a single render pass
  (namespace `LifeOfGame.RenderOnly`).

Host-side behaviour is modelled: buffers become named identities, GPU calls
become a command list, `Math.random()` becomes an explicit rational sample,
and the only mutable host variable (`step`) is threaded explicitly.  The WGSL
shaders are external collaborators and are not modelled.
-/

namespace LifeOfGame

/-- The buffers allocated by either variant, as identities.
`cellStateA` is `cellStateStorage[0]` ("Cell State A"),
`cellStateB` is `cellStateStorage[1]` ("Cell State B"). -/
inductive Buffer where
| vertexBuffer
| uniformBuffer
| cellStateA
| cellStateB
deriving DecidableEq, Repr

/-- The shader stages named in `GPUShaderStage` flags. -/
inductive ShaderStage where
| vertex
| fragment
| compute
deriving DecidableEq, Repr

/-- The `buffer.type` field of a bind-group-layout entry
(`{}` defaults to a uniform buffer). -/
inductive BufferBindingType where
| uniform
| readOnlyStorage
| storage
deriving DecidableEq, Repr

/-- One entry of a `GPUBindGroupLayout`. -/
structure BindGroupLayoutEntry where
  binding : Nat
  visibility : List ShaderStage
  type : BufferBindingType
deriving DecidableEq, Repr

/-- One entry of a `GPUBindGroup`: a binding slot and the buffer bound there. -/
structure BindGroupEntry where
  binding : Nat
  resource : Buffer
deriving DecidableEq, Repr

/-- A `GPUBindGroup`: its label, the layout it was created against, and its
entries. -/
structure BindGroup where
  label : String
  layout : List BindGroupLayoutEntry
  entries : List BindGroupEntry
deriving DecidableEq, Repr

/-- The buffer a bind group places at binding slot `b`, when any. -/
def BindGroup.resourceAt (bg : BindGroup) (b : Nat) : Option Buffer :=
  (bg.entries.find? (fun e => e.binding == b)).map BindGroupEntry.resource

/-- The host-issued GPU commands either variant performs.  `writeBuffer` is a
host upload via `device.queue.writeBuffer`; the rest are encoder/pass calls. -/
inductive Command where
| writeBuffer (target : Buffer)
| beginComputePass
| beginRenderPass
| setPipeline (label : String)
| setBindGroup (index : Nat) (bg : BindGroup)
| setVertexBuffer (slot : Nat) (buffer : Buffer)
| dispatchWorkgroups (x y : Nat)
| draw (vertexCount instanceCount : Nat)
| endPass
| submit
deriving DecidableEq, Repr

/-- Whether a command is a host upload into a GPU buffer. -/
def Command.isHostWrite : Command → Bool
| .writeBuffer _ => true
| _ => false

/-- Whether a command belongs to a compute pass (opens one, or can only occur
inside one). -/
def Command.isComputeCommand : Command → Bool
| .beginComputePass => true
| .dispatchWorkgroups _ _ => true
| _ => false

/-- The bind groups set by a command list, in order. -/
def setBindGroupsOf (cs : List Command) : List BindGroup :=
  cs.filterMap (fun c => match c with
    | .setBindGroup _ bg => some bg
    | _ => none)

/-- The `(x, y)` workgroup counts of the dispatch commands of a command list,
in order. -/
def dispatchesOf (cs : List Command) : List (Nat × Nat) :=
  cs.filterMap (fun c => match c with
    | .dispatchWorkgroups x y => some (x, y)
    | _ => none)

/-- The `(vertexCount, instanceCount)` arguments of the draw commands of a
command list, in order. -/
def drawsOf (cs : List Command) : List (Nat × Nat) :=
  cs.filterMap (fun c => match c with
    | .draw v i => some (v, i)
    | _ => none)

/-- The platform preconditions checked during startup, as an environment
record: whether `navigator.gpu` exists, whether `requestAdapter()` returns an
adapter, and whether `canvas.getContext("webgpu")` returns a context. -/
structure Platform where
  gpuSupported : Bool
  adapterAvailable : Bool
  contextAvailable : Bool
deriving DecidableEq, Repr

/-- The startup precondition checks shared by both variants
(`main.ts` lines 8-20, `part_000` lines 5-18): each missing capability throws
with its diagnostic message, otherwise startup proceeds. -/
def bootstrap (p : Platform) : Except String Unit :=
  if !p.gpuSupported then
    .error "WebGPU not supported on this browser."
  else if !p.adapterAvailable then
    .error "No appropriate GPUAdapter found."
  else if !p.contextAvailable then
    .error "Unable to obtain WebGPU context."
  else
    .ok ()

namespace Main

/-- `const GRID_SIZE = 128` (main.ts line 4). -/
def GRID_SIZE : Nat := 128

/-- `const WORKGROUP_SIZE = 8` (main.ts line 5). -/
def WORKGROUP_SIZE : Nat := 8

/-- `const UPDATE_INTERVAL = 200` (main.ts line 180). -/
def UPDATE_INTERVAL : Nat := 200

/-- The quad vertex data (main.ts lines 28-37): six 2-component vertices. -/
def vertices : List ℚ :=
  [ -4/5, -4/5,
     4/5, -4/5,
     4/5,  4/5,
    -4/5, -4/5,
     4/5,  4/5,
    -4/5,  4/5 ]

/-- `const uniformArray = new Float32Array([GRID_SIZE, GRID_SIZE])`
(main.ts line 46). -/
def uniformArray : List ℚ := [(GRID_SIZE : ℚ), (GRID_SIZE : ℚ)]

/-- `const cellStateStorage = [...]` (main.ts lines 57-68): the two cell-state
storage buffers, index 0 is "Cell State A", index 1 is "Cell State B". -/
def cellStateStorage : List Buffer := [Buffer.cellStateA, Buffer.cellStateB]

/-- The seeding of a single cell (main.ts line 73):
`cellStateArray[i] = Math.random() > 0.6 ? 1 : 0`, with the random sample `r`
made explicit. -/
def seedCell (r : ℚ) : Nat := if r > 3/5 then 1 else 0

/-- `const cellStateArray = new Uint32Array(GRID_SIZE * GRID_SIZE)` after the
seeding loop of main.ts lines 72-74, with the stream of `Math.random()`
samples made explicit as `rand`. -/
def cellStateArray (rand : Nat → ℚ) : List Nat :=
  (List.range (GRID_SIZE * GRID_SIZE)).map (fun i => seedCell (rand i))

/-- The host uploads performed at startup (main.ts lines 76-78), in order:
cell state into `cellStateStorage[0]`, then the vertex data, then the grid
uniform. -/
def initCommands : List Command :=
  [ .writeBuffer (cellStateStorage.getD 0 Buffer.cellStateA),
    .writeBuffer Buffer.vertexBuffer,
    .writeBuffer Buffer.uniformBuffer ]

/-- `const bindGroupLayout = ...` (main.ts lines 101-116): binding 0 is the
grid uniform visible to vertex, compute and fragment stages; binding 1 is the
read-only cell-state input visible to vertex and compute; binding 2 is the
writable cell-state output visible to compute only. -/
def bindGroupLayout : List BindGroupLayoutEntry :=
  [ ⟨0, [ShaderStage.vertex, ShaderStage.compute, ShaderStage.fragment],
       BufferBindingType.uniform⟩,
    ⟨1, [ShaderStage.vertex, ShaderStage.compute],
       BufferBindingType.readOnlyStorage⟩,
    ⟨2, [ShaderStage.compute],
       BufferBindingType.storage⟩ ]

/-- `bindGroups[0]` (main.ts lines 119-132): uniform at 0, Cell State A at 1,
Cell State B at 2. -/
def bindGroupA : BindGroup :=
  { label := "Cell renderer bind group A"
    layout := bindGroupLayout
    entries := [ ⟨0, Buffer.uniformBuffer⟩,
                 ⟨1, Buffer.cellStateA⟩,
                 ⟨2, Buffer.cellStateB⟩ ] }

/-- `bindGroups[1]` (main.ts lines 133-146): uniform at 0, Cell State B at 1,
Cell State A at 2. -/
def bindGroupB : BindGroup :=
  { label := "Cell renderer bind group B"
    layout := bindGroupLayout
    entries := [ ⟨0, Buffer.uniformBuffer⟩,
                 ⟨1, Buffer.cellStateB⟩,
                 ⟨2, Buffer.cellStateA⟩ ] }

/-- `const bindGroups = [...]` (main.ts lines 118-147). -/
def bindGroups : List BindGroup := [bindGroupA, bindGroupB]

/-- `Math.ceil(N / tileSize)` of main.ts line 191 with the two constants
generalized: real division followed by ceiling, truncated to a natural
number. -/
def workgroupCountOf (n tileSize : Nat) : Nat :=
  (Int.ceil ((n : ℚ) / (tileSize : ℚ))).toNat

/-- `const workgroupCount = Math.ceil(GRID_SIZE / WORKGROUP_SIZE)`
(main.ts line 191). -/
def workgroupCount : Nat := workgroupCountOf GRID_SIZE WORKGROUP_SIZE

/-- Modelled from the spec: the spec's `ceil(N / tileSize)` workgroups per
axis, as natural-number ceiling division. -/
def specWorkgroupsPerAxis (n tileSize : Nat) : Nat :=
  (n + tileSize - 1) / tileSize

/-- One invocation of `updateGrid` (main.ts lines 184-217): given the value of
`step` at entry, returns the value of `step` after the invocation and the GPU
commands issued, in order.  The inner `let step := step + 1` mirrors the
`step++` between the compute pass and the render pass, so the render pass
reads the post-increment value. -/
def updateGrid (step : Nat) : Nat × List Command :=
  let computeCommands : List Command :=
    [ .beginComputePass,
      .setPipeline "Simulation pipeline",
      .setBindGroup 0 (bindGroups.getD (step % 2) bindGroupA),
      .dispatchWorkgroups workgroupCount workgroupCount,
      .endPass ]
  let step := step + 1
  let renderCommands : List Command :=
    [ .beginRenderPass,
      .setPipeline "Cell pipeline",
      .setBindGroup 0 (bindGroups.getD (step % 2) bindGroupA),
      .setVertexBuffer 0 Buffer.vertexBuffer,
      .draw (vertices.length / 2) (GRID_SIZE * GRID_SIZE),
      .endPass,
      .submit ]
  (step, computeCommands ++ renderCommands)

/-- The value of `step` after `k` invocations of `updateGrid`:
`let step = 0` (main.ts line 181), then each timer tick runs `updateGrid`. -/
def stepAfter : Nat → Nat
| 0 => 0
| k + 1 => (updateGrid (stepAfter k)).1

/-- The commands issued by frame `k` (the `k`-th invocation of `updateGrid`,
counting from 0). -/
def frameCommands (k : Nat) : List Command := (updateGrid (stepAfter k)).2

/-- The bind group the compute pass of frame `k` binds:
`bindGroups[step % 2]` with the pre-increment `step`. -/
def frameComputeBindGroup (k : Nat) : BindGroup :=
  bindGroups.getD (stepAfter k % 2) bindGroupA

/-- The bind group the render pass of frame `k` binds:
`bindGroups[step % 2]` with the post-increment `step`. -/
def frameRenderBindGroup (k : Nat) : BindGroup :=
  bindGroups.getD ((stepAfter k + 1) % 2) bindGroupA

/-- The commands of a whole run of `n` frames, in order. -/
def traceCommands (n : Nat) : List Command :=
  ((List.range n).map frameCommands).flatten

end Main

namespace RenderOnly

/-- `const GRID_SIZE = 32` (part_000 line 3). -/
def GRID_SIZE : Nat := 32

/-- The quad vertex data (part_000 lines 28-37), identical to the full
variant. -/
def vertices : List ℚ :=
  [ -4/5, -4/5,
     4/5, -4/5,
     4/5,  4/5,
    -4/5, -4/5,
     4/5,  4/5,
    -4/5,  4/5 ]

/-- `const uniformArray = new Float32Array([GRID_SIZE, GRID_SIZE])`
(part_000 line 46). -/
def uniformArray : List ℚ := [(GRID_SIZE : ℚ), (GRID_SIZE : ℚ)]

/-- `const bindGroup = ...` (part_000 lines 87-94): the single bind group,
binding only the grid uniform at slot 0.  Its layout comes from
`cellPipeline.getBindGroupLayout(0)` with `layout: "auto"`, so it exposes just
the uniform binding. -/
def bindGroup : BindGroup :=
  { label := "Cell renderer bind group"
    layout := [⟨0, [ShaderStage.vertex, ShaderStage.fragment],
                 BufferBindingType.uniform⟩]
    entries := [⟨0, Buffer.uniformBuffer⟩] }

/-- Every GPU command the render-only variant issues (part_000 lines 53-112),
in order: the two startup uploads, then the single render pass and its
submission.  No compute pass exists in this variant. -/
def commands : List Command :=
  [ .writeBuffer Buffer.vertexBuffer,
    .writeBuffer Buffer.uniformBuffer,
    .beginRenderPass,
    .setPipeline "Cell pipeline",
    .setVertexBuffer 0 Buffer.vertexBuffer,
    .setBindGroup 0 bindGroup,
    .draw (vertices.length / 2) (GRID_SIZE * GRID_SIZE),
    .endPass,
    .submit ]

end RenderOnly

/-! ## Helper lemmas -/

/-- After `k` invocations the step counter holds exactly `k`. -/
lemma stepAfter_eq (k : Nat) : Main.stepAfter k = k := by
  induction k with
  | zero => rfl
  | succ n ih => simp [Main.stepAfter, Main.updateGrid, ih]

/-- The two bind groups are distinct descriptor sets. -/
lemma bindGroupA_ne_bindGroupB : Main.bindGroupA ≠ Main.bindGroupB := by
  decide

/-- The code's ceiling expression agrees with natural-number ceiling division
for every positive tile size. -/
lemma workgroupCountOf_eq_ceilDiv (n t : Nat) (ht : 0 < t) :
    Main.workgroupCountOf n t = (n + t - 1) / t := by
  have htQ : (0 : ℚ) < (t : ℚ) := by exact_mod_cast ht
  have key : ∀ c : Nat, Main.workgroupCountOf n t ≤ c ↔ (n + t - 1) / t ≤ c := by
    intro c
    rw [← Nat.ceilDiv_eq_add_pred_div, ceilDiv_le_iff_le_mul ht,
      Main.workgroupCountOf, Int.toNat_le, Int.ceil_le]
    push_cast
    rw [div_le_iff₀ htQ]
    constructor
    · intro h2
      have hn : n ≤ c * t := by exact_mod_cast h2
      exact hn.trans_eq (Nat.mul_comm c t)
    · intro h2
      have hn : n ≤ c * t := h2.trans_eq (Nat.mul_comm t c)
      exact_mod_cast hn
  exact le_antisymm ((key _).mpr le_rfl) ((key _).mp le_rfl)

/-- No command of a frame is a host upload. -/
lemma frame_no_host_write (s : Nat) :
    (Main.updateGrid s).2.filter Command.isHostWrite = [] := by
  simp [Main.updateGrid, Command.isHostWrite]

/-! ## Claim theorems -/

/-- Claim C1: the storage buffer bound as writable output (binding 2) by the
compute dispatch of frame `k` is the buffer bound as read-only input
(binding 1) by the compute dispatch of frame `k + 1`, and vice versa; no
frame's compute dispatch reads the buffer it writes, because the bind group
selected by the pre-increment step parity always binds one cell-state buffer
at binding 1 and the other at binding 2. -/
theorem c1_ping_pong (k : Nat) :
    (Main.frameComputeBindGroup k).resourceAt 2 =
      (Main.frameComputeBindGroup (k + 1)).resourceAt 1 ∧
    (Main.frameComputeBindGroup k).resourceAt 1 =
      (Main.frameComputeBindGroup (k + 1)).resourceAt 2 ∧
    (Main.frameComputeBindGroup k).resourceAt 1 ≠
      (Main.frameComputeBindGroup k).resourceAt 2 ∧
    setBindGroupsOf (Main.frameCommands k) =
      [Main.frameComputeBindGroup k, Main.frameRenderBindGroup k] := by
  have hlink : setBindGroupsOf (Main.frameCommands k) =
      [Main.frameComputeBindGroup k, Main.frameRenderBindGroup k] := by
    simp [Main.frameCommands, Main.updateGrid, setBindGroupsOf,
      Main.frameComputeBindGroup, Main.frameRenderBindGroup]
  refine ⟨?_, ?_, ?_, hlink⟩ <;>
  · simp only [Main.frameComputeBindGroup, stepAfter_eq]
    rcases Nat.mod_two_eq_zero_or_one k with h | h
    · have h2 : (k + 1) % 2 = 1 := by omega
      simp [h, h2, Main.bindGroups, Main.bindGroupA, Main.bindGroupB,
        BindGroup.resourceAt]
    · have h2 : (k + 1) % 2 = 0 := by omega
      simp [h, h2, Main.bindGroups, Main.bindGroupA, Main.bindGroupB,
        BindGroup.resourceAt]

/-- Claim C2: within one invocation of `updateGrid` entered with step value
`s`, the compute pass binds bind group index `s % 2`, the step counter is
incremented to `s + 1`, the render pass binds bind group index `(s + 1) % 2`,
and the two selections never coincide. -/
theorem c2_bind_group_selection (s : Nat) :
    (Main.updateGrid s).1 = s + 1 ∧
    setBindGroupsOf (Main.updateGrid s).2 =
      [Main.bindGroups.getD (s % 2) Main.bindGroupA,
       Main.bindGroups.getD ((s + 1) % 2) Main.bindGroupA] ∧
    s % 2 ≠ (s + 1) % 2 ∧
    Main.bindGroups.getD (s % 2) Main.bindGroupA ≠
      Main.bindGroups.getD ((s + 1) % 2) Main.bindGroupA := by
  refine ⟨rfl, by simp [Main.updateGrid, setBindGroupsOf], by omega, ?_⟩
  rcases Nat.mod_two_eq_zero_or_one s with h | h
  · have h2 : (s + 1) % 2 = 1 := by omega
    simpa [h, h2, Main.bindGroups] using bindGroupA_ne_bindGroupB
  · have h2 : (s + 1) % 2 = 0 := by omega
    simpa [h, h2, Main.bindGroups] using bindGroupA_ne_bindGroupB.symm

/-- Claim C3: for every grid side length and positive tile size the code's
`Math.ceil` expression equals ceiling division, the dispatch of every frame is
square with `workgroupCount` groups per axis, and with the program's constants
(128 and 8) the count is 16. -/
theorem c3_workgroup_count (n tileSize s : Nat) (ht : 0 < tileSize) :
    Main.workgroupCountOf n tileSize = Main.specWorkgroupsPerAxis n tileSize ∧
    Main.workgroupCount = Main.workgroupCountOf Main.GRID_SIZE Main.WORKGROUP_SIZE ∧
    Main.workgroupCount = 16 ∧
    dispatchesOf (Main.updateGrid s).2 =
      [(Main.workgroupCount, Main.workgroupCount)] := by
  refine ⟨workgroupCountOf_eq_ceilDiv n tileSize ht, rfl, ?_, ?_⟩
  · rw [Main.workgroupCount,
      workgroupCountOf_eq_ceilDiv Main.GRID_SIZE Main.WORKGROUP_SIZE
        (by norm_num [Main.WORKGROUP_SIZE])]
    decide
  · simp [Main.updateGrid, dispatchesOf]

/-- Witness for C3 at the program's own constants `N = 128`, `tileSize = 8`. -/
theorem c3_workgroup_count_witness :
    0 < 8 ∧
    (Main.workgroupCountOf 128 8 = Main.specWorkgroupsPerAxis 128 8 ∧
     Main.workgroupCount = Main.workgroupCountOf Main.GRID_SIZE Main.WORKGROUP_SIZE ∧
     Main.workgroupCount = 16 ∧
     dispatchesOf (Main.updateGrid 0).2 =
       [(Main.workgroupCount, Main.workgroupCount)]) :=
  ⟨by norm_num, c3_workgroup_count 128 8 0 (by norm_num)⟩

/-- Claim C4: every frame of the full variant draws 6 vertices (the vertex
array length divided by the 2 components per vertex) across `128 * 128 =
16384` instances; the render-only variant issues one draw of 6 vertices
across `32 * 32 = 1024` instances, its single bind group holds only the grid
uniform, and its command stream contains no compute pass. -/
theorem c4_draw_calls (k : Nat) :
    Main.vertices.length / 2 = 6 ∧
    drawsOf (Main.frameCommands k) =
      [(Main.vertices.length / 2, Main.GRID_SIZE * Main.GRID_SIZE)] ∧
    drawsOf (Main.frameCommands k) = [(6, 16384)] ∧
    RenderOnly.vertices.length / 2 = 6 ∧
    drawsOf RenderOnly.commands =
      [(RenderOnly.vertices.length / 2, RenderOnly.GRID_SIZE * RenderOnly.GRID_SIZE)] ∧
    drawsOf RenderOnly.commands = [(6, 1024)] ∧
    RenderOnly.bindGroup.entries = [⟨0, Buffer.uniformBuffer⟩] ∧
    RenderOnly.commands.filter Command.isComputeCommand = [] := by
  refine ⟨by decide, ?_, ?_, by decide, by decide, by decide, by decide, by decide⟩ <;>
    simp [Main.frameCommands, Main.updateGrid, drawsOf, Main.vertices,
      Main.GRID_SIZE]

/-- Counterexample to claim C5 as stated: at the sample `0.7 > 0.6` the code
seeds the cell as alive (1), not dead (0). -/
theorem c5_counterexample :
    (3/5 : ℚ) < 7/10 ∧ Main.seedCell (7/10) = 1 ∧ Main.seedCell (7/10) ≠ 0 := by
  refine ⟨by norm_num, ?_, ?_⟩ <;> norm_num [Main.seedCell]

/-- Claim C5 (amended): a cell whose random sample exceeds the 0.6 threshold
is set to alive (1), otherwise to dead (0); the alive samples within `[0, 1)`
form exactly the interval `(0.6, 1)`, whose length is `0.4`, so a uniform
sample is alive with probability 0.4. -/
theorem c5_seeding_polarity :
    (∀ r : ℚ, Main.seedCell r = 1 ↔ 3/5 < r) ∧
    (∀ r : ℚ, Main.seedCell r = 0 ↔ r ≤ 3/5) ∧
    {r : ℚ | 0 ≤ r ∧ r < 1 ∧ Main.seedCell r = 1} = Set.Ioo (3/5 : ℚ) 1 ∧
    (1 : ℚ) - 3/5 = 2/5 := by
  have alive : ∀ r : ℚ, Main.seedCell r = 1 ↔ 3/5 < r := by
    intro r
    by_cases h : (3/5 : ℚ) < r <;> simp [Main.seedCell, h]
  refine ⟨alive, ?_, ?_, by norm_num⟩
  · intro r
    by_cases h : (3/5 : ℚ) < r <;>
      simp [Main.seedCell, h, not_le.mpr, not_lt.mp]
  · ext r
    simp only [Set.mem_setOf_eq, Set.mem_Ioo, alive r]
    constructor
    · rintro ⟨-, h1, h2⟩
      exact ⟨h2, h1⟩
    · rintro ⟨h1, h2⟩
      exact ⟨by linarith, h2, h1⟩

/-- Claim C6: at startup exactly one of the two cell-state storage buffers
(namely `cellStateStorage[0]`) receives a host upload, the other receives
none, the seed array covers all `GRID_SIZE * GRID_SIZE` cells, and every seed
element is 0 or 1, whatever the random samples are. -/
theorem c6_seed_upload :
    Main.initCommands.filter
        (fun c => c == Command.writeBuffer Buffer.cellStateA ||
                  c == Command.writeBuffer Buffer.cellStateB) =
      [Command.writeBuffer Buffer.cellStateA] ∧
    Command.writeBuffer Buffer.cellStateB ∉ Main.initCommands ∧
    (∀ rand : Nat → ℚ,
      (Main.cellStateArray rand).length = Main.GRID_SIZE * Main.GRID_SIZE) ∧
    (∀ rand : Nat → ℚ,
      (Main.cellStateArray rand).all (fun x => x == 0 || x == 1) = true) := by
  refine ⟨by decide, by decide, ?_, ?_⟩
  · intro rand
    simp [Main.cellStateArray]
  · intro rand
    simp only [Main.cellStateArray, List.all_eq_true, List.mem_map,
      List.mem_range]
    rintro x ⟨i, -, rfl⟩
    unfold Main.seedCell
    split <;> simp

/-- Claim C7: the step counter starts at 0, each invocation increments it by
exactly one, after `n` invocations it equals `n`, it is strictly increasing
(never reset), and its parity alone selects the bind groups of frame `k`:
`k % 2` for the compute pass and `(k + 1) % 2` for the render pass. -/
theorem c7_step_counter :
    Main.stepAfter 0 = 0 ∧
    (∀ n, Main.stepAfter (n + 1) = Main.stepAfter n + 1) ∧
    (∀ n, Main.stepAfter n = n) ∧
    StrictMono Main.stepAfter ∧
    (∀ k, Main.frameComputeBindGroup k =
            Main.bindGroups.getD (k % 2) Main.bindGroupA ∧
          Main.frameRenderBindGroup k =
            Main.bindGroups.getD ((k + 1) % 2) Main.bindGroupA) := by
  refine ⟨rfl, ?_, stepAfter_eq, ?_, ?_⟩
  · intro n
    simp [Main.stepAfter, Main.updateGrid]
  · intro a b hab
    simpa [stepAfter_eq] using hab
  · intro k
    constructor <;>
      simp [Main.frameComputeBindGroup, Main.frameRenderBindGroup, stepAfter_eq]

/-- Claim C8: startup aborts with a descriptive error exactly when GPU
support, the adapter, or the drawable context is missing, each with its own
message; when all three are present, startup succeeds. -/
theorem c8_bootstrap_errors (p : Platform) :
    (bootstrap p = Except.ok () ↔
      p.gpuSupported = true ∧ p.adapterAvailable = true ∧
        p.contextAvailable = true) ∧
    (p.gpuSupported = false →
      bootstrap p = Except.error "WebGPU not supported on this browser.") ∧
    (p.gpuSupported = true → p.adapterAvailable = false →
      bootstrap p = Except.error "No appropriate GPUAdapter found.") ∧
    (p.gpuSupported = true → p.adapterAvailable = true →
        p.contextAvailable = false →
      bootstrap p = Except.error "Unable to obtain WebGPU context.") := by
  obtain ⟨g, a, c⟩ := p
  cases g <;> cases a <;> cases c <;> simp [bootstrap]

/-- Witness for C8: on a platform without GPU support, startup reports the
missing-support message. -/
theorem c8_bootstrap_errors_witness :
    bootstrap ⟨false, true, true⟩ =
      Except.error "WebGPU not supported on this browser." :=
  (c8_bootstrap_errors ⟨false, true, true⟩).2.1 rfl

/-- Claim C9: startup performs exactly the three host uploads (cell state,
vertices, grid uniform); a frame issues no host upload, and neither does any
run of `n` frames, so after the initial uploads the host never again writes
any buffer; the only host-visible state a frame changes is the step counter,
which it increments. -/
theorem c9_no_host_writes_after_frames (s n : Nat) :
    Main.initCommands.filter Command.isHostWrite = Main.initCommands ∧
    Main.initCommands.length = 3 ∧
    (Main.updateGrid s).1 = s + 1 ∧
    (Main.updateGrid s).2.filter Command.isHostWrite = [] ∧
    (Main.traceCommands n).filter Command.isHostWrite = [] := by
  refine ⟨by decide, by decide, rfl, frame_no_host_write s, ?_⟩
  induction n with
  | zero => rfl
  | succ m ih =>
    simp only [Main.traceCommands, List.range_succ, List.map_append,
      List.map_cons, List.map_nil, List.flatten_append, List.filter_append]
    rw [show ((List.range m).map Main.frameCommands).flatten =
        Main.traceCommands m from rfl, ih]
    simp [Main.frameCommands, frame_no_host_write]

/-- Claim C10: the two precomputed bind groups share one layout (the single
bind-group layout of the program), both place the uniform buffer at binding
0, and they differ only by exchanging which cell-state buffer sits at binding
1 (read-only input) versus binding 2 (writable output). -/
theorem c10_bind_group_pair :
    Main.bindGroupA.layout = Main.bindGroupB.layout ∧
    Main.bindGroupA.layout = Main.bindGroupLayout ∧
    Main.bindGroupA.resourceAt 0 = some Buffer.uniformBuffer ∧
    Main.bindGroupB.resourceAt 0 = some Buffer.uniformBuffer ∧
    Main.bindGroupA.resourceAt 1 = some Buffer.cellStateA ∧
    Main.bindGroupA.resourceAt 2 = some Buffer.cellStateB ∧
    Main.bindGroupB.resourceAt 1 = some Buffer.cellStateB ∧
    Main.bindGroupB.resourceAt 2 = some Buffer.cellStateA := by
  refine ⟨rfl, rfl, ?_, ?_, ?_, ?_, ?_, ?_⟩ <;> rfl

end LifeOfGame
